import Mathlib

/-!
Verification development for the Terraform-SageMaker-XGBoost repository.

The file shallowly embeds the Python sources:

* `src/lambda/pipeline_trigger.py` — `is_pipeline_running` and `handler`,
  with the SageMaker client, the environment, and the clock supplied as an
  explicit world value;
* `src/ml/prepare_data.py` — `prepare_three_way_split`, with the raw file,
  the S3 bucket variable and the ambient global random generator supplied
  as an explicit environment, and the performed writes/uploads returned as
  an effect trace;
* `src/ml/pipeline_terraform.py` — the declarative condition step of the
  generated pipeline definition;
* `src/ml/training/train.py` — the training entry point, with the
  filesystem and the XGBoost training outcome supplied as an environment
  and standard output returned as a list of text lines;
* `src/ml/training/evaluate.py` — the shape of the evaluation report
  document (the fields the condition step's JSON lookup reads).

Machine floats of the Python sources are modelled as rationals; the
textual rendering of a float is modelled by a fixed decimal rendering
(digits and one dot), which is the only property of the rendering the
theorems use.
-/

/-- The character of the decimal digit of `n` modulo 10. -/
def decDigit (n : Nat) : Char :=
  match n % 10 with
  | 0 => '0'
  | 1 => '1'
  | 2 => '2'
  | 3 => '3'
  | 4 => '4'
  | 5 => '5'
  | 6 => '6'
  | 7 => '7'
  | 8 => '8'
  | _ => '9'

/-- Decimal rendering of a natural number. -/
def natStr (n : Nat) : String :=
  if _h : n < 10 then String.mk [decDigit n]
  else natStr (n / 10) ++ String.mk [decDigit n]
termination_by n
decreasing_by exact Nat.div_lt_self (by omega) (by omega)

/-- Decimal rendering of an integer. -/
def intStr (n : Int) : String :=
  if n < 0 then "-" ++ natStr n.natAbs else natStr n.natAbs

/-- Two-character zero-padded decimal rendering (faithful to strftime's
percent-m, percent-d, percent-H, percent-M, percent-S for values below 100). -/
def pad2 (n : Nat) : String :=
  String.mk [decDigit (n / 10), decDigit n]

/-- Four-character zero-padded decimal rendering (faithful to strftime's
percent-Y for years between 1000 and 9999). -/
def pad4 (n : Nat) : String :=
  String.mk [decDigit (n / 1000), decDigit (n / 100), decDigit (n / 10), decDigit n]

/-- Six-character zero-padded decimal rendering (used for the fractional
part of the decimal rendering of a rational). -/
def pad6 (n : Nat) : String :=
  String.mk [decDigit (n / 100000), decDigit (n / 10000), decDigit (n / 1000),
             decDigit (n / 100), decDigit (n / 10), decDigit n]

/-- The first six fractional decimal digits of a rational, as a natural
number below one million. -/
def fracDigits6 (q : ℚ) : Nat := ((q - ⌊q⌋) * 1000000).floor.toNat

/-- Decimal rendering of a rational: integer part, a dot, six fractional
digits.  This models the textual rendering of a Python float; the theorems
only use that for a nonnegative value it is a nonempty string of digits
containing a dot. -/
def floatStr (q : ℚ) : String :=
  if q < 0 then "-" ++ natStr (Int.natAbs ⌈q⌉) ++ "." ++ pad6 (fracDigits6 (-q))
  else natStr (Int.toNat ⌊q⌋) ++ "." ++ pad6 (fracDigits6 q)

theorem string_data_append (a b : String) : (a ++ b).data = a.data ++ b.data := rfl

theorem decDigit_isDigit (n : Nat) : (decDigit n).isDigit = true := by
  have h : n % 10 < 10 := Nat.mod_lt _ (by omega)
  unfold decDigit
  set k := n % 10 with hk
  interval_cases k <;> rfl

theorem natStr_data_all_digits (n : Nat) :
    (natStr n).data.all Char.isDigit = true := by
  induction n using Nat.strong_induction_on with
  | _ n ih =>
    unfold natStr
    by_cases h : n < 10
    · simp [h, decDigit_isDigit]
    · have hd : n / 10 < n := Nat.div_lt_self (by omega) (by omega)
      simp only [h, dite_false, string_data_append]
      rw [List.all_append]
      simp [ih _ hd, decDigit_isDigit]

theorem natStr_head_digit (n : Nat) :
    ∃ c cs, (natStr n).data = c :: cs ∧ c.isDigit = true := by
  induction n using Nat.strong_induction_on with
  | _ n ih =>
    unfold natStr
    by_cases h : n < 10
    · exact ⟨decDigit n, [], by simp [h], decDigit_isDigit n⟩
    · have hd : n / 10 < n := Nat.div_lt_self (by omega) (by omega)
      obtain ⟨c, cs, hdata, hc⟩ := ih _ hd
      refine ⟨c, cs ++ [decDigit n], ?_, hc⟩
      simp only [h, dite_false, string_data_append, hdata]
      rfl

theorem pad2_digits (n : Nat) :
    (pad2 n).data = [decDigit (n / 10), decDigit n] := rfl

theorem pad4_digits (n : Nat) :
    (pad4 n).data = [decDigit (n / 1000), decDigit (n / 100), decDigit (n / 10), decDigit n] := rfl

/-! ## Lambda trigger handler (src/lambda/pipeline_trigger.py) -/

/-- JSON-like Python values: the shape of the incoming event and of the
response bodies built with json.dumps. -/
inductive JValue where
  | jNull : JValue
  | jBool : Bool → JValue
  | jNum : Int → JValue
  | jStr : String → JValue
  | jArr : List JValue → JValue
  | jObj : List (String × JValue) → JValue

/-- Python exceptions relevant to the handler: the handler's except clauses
distinguish KeyError from every other exception. -/
inductive PyErr where
  | keyError : String → PyErr
  | typeError : String → PyErr
  | otherError : String → PyErr
deriving DecidableEq

/-- Python subscripting `v[k]` with a string key: returns the field of a
dict, raises KeyError on a missing key, raises TypeError on a
non-subscriptable (non-dict) value. -/
def pyGetItem (v : JValue) (k : String) : Except PyErr JValue :=
  match v with
  | JValue.jObj fields =>
    match fields.lookup k with
    | some x => Except.ok x
    | none => Except.error (PyErr.keyError k)
  | _ => Except.error (PyErr.typeError "object is not subscriptable")

/-- Lines 67-68 of pipeline_trigger.py: extract
event.detail.bucket.name and event.detail.object.key, in evaluation
order. -/
def extractTrigger (event : JValue) : Except PyErr (JValue × JValue) := do
  let detail ← pyGetItem event "detail"
  let bucket ← pyGetItem detail "bucket"
  let bucketName ← pyGetItem bucket "name"
  let obj ← pyGetItem detail "object"
  let key ← pyGetItem obj "key"
  pure (bucketName, key)

/-- An entry of PipelineExecutionSummaries.  The ARN identifies the
execution (always present in a summary); the status field is read with a
defaulting `.get`, so it is optional. -/
structure ExecutionSummary where
  pipelineExecutionArn : String
  pipelineExecutionStatus : Option String

/-- The response of list_pipeline_executions; the summaries field is read
with a defaulting `.get`, so it is optional. -/
structure ListResponse where
  pipelineExecutionSummaries : Option (List ExecutionSummary)

/-- The arguments pipeline_trigger.py passes to list_pipeline_executions. -/
structure ListRequest where
  pipelineName : String
  sortBy : String
  sortOrder : String
  maxResults : Nat
deriving DecidableEq

/-- A pipeline parameter of start_pipeline_execution. -/
structure PipelineParameter where
  name : String
  value : String
deriving DecidableEq

/-- The arguments pipeline_trigger.py passes to start_pipeline_execution. -/
structure StartRequest where
  pipelineName : String
  pipelineExecutionDisplayName : String
  pipelineExecutionDescription : String
  pipelineParameters : List PipelineParameter
deriving DecidableEq

/-- The response of start_pipeline_execution; the handler indexes the ARN
field with brackets, so a malformed response raises KeyError, hence the
field is optional here. -/
structure StartResponse where
  pipelineExecutionArn : Option String

/-- The boto3 SageMaker client, modelled as the response (or exception) it
produces for each request. -/
structure SageMakerClient where
  listPipelineExecutions : ListRequest → Except PyErr ListResponse
  startPipelineExecution : StartRequest → Except PyErr StartResponse

/-- A UTC datetime at second precision, as produced by datetime.utcnow(). -/
structure PyDatetime where
  year : Nat
  month : Nat
  day : Nat
  hour : Nat
  minute : Nat
  second : Nat

/-- A datetime utcnow() can actually produce (the bounds under which the
zero-padded strftime model below is the faithful rendering). -/
def validUTC (t : PyDatetime) : Prop :=
  1000 ≤ t.year ∧ t.year ≤ 9999 ∧ 1 ≤ t.month ∧ t.month ≤ 12 ∧
  1 ≤ t.day ∧ t.day ≤ 31 ∧ t.hour < 24 ∧ t.minute < 60 ∧ t.second < 60

instance (t : PyDatetime) : Decidable (validUTC t) := by
  unfold validUTC; infer_instance

/-- strftime with format percent-Y percent-m percent-d dash percent-H
percent-M percent-S, as used at line 87 of pipeline_trigger.py. -/
def strftimeTimestamp (t : PyDatetime) : String :=
  pad4 t.year ++ pad2 t.month ++ pad2 t.day ++ "-" ++
  pad2 t.hour ++ pad2 t.minute ++ pad2 t.second

/-- The world the handler runs in: the PIPELINE_NAME environment variable,
the SageMaker client and the current time. -/
structure HandlerWorld where
  pipelineNameEnv : Option String
  client : SageMakerClient
  utcNow : PyDatetime

/-- Line 25 of pipeline_trigger.py. -/
def active_statuses : List String := ["Executing", "Stopping"]

/-- The list request built at lines 18-23 of pipeline_trigger.py: the most
recent at most five executions, ordered newest-first by creation time. -/
def listRequestFor (pipeline_name : String) : ListRequest :=
  ⟨pipeline_name, "CreationTime", "Descending", 5⟩

/-- Lines 16-40 of pipeline_trigger.py: any listed summary with an active
status means running; any exception from the call means not running. -/
def is_pipeline_running (client : SageMakerClient) (pipeline_name : String) : Bool :=
  match client.listPipelineExecutions (listRequestFor pipeline_name) with
  | Except.ok response =>
    (response.pipelineExecutionSummaries.getD []).any
      (fun execution => active_statuses.contains (execution.pipelineExecutionStatus.getD ""))
  | Except.error _ => false

/-- Python str() of an exception, as interpolated into the handler's error
bodies (str of a KeyError is the quoted key). -/
def pyStrOfErr : PyErr → String
  | PyErr.keyError k => "\x27" ++ k ++ "\x27"
  | PyErr.typeError m => m
  | PyErr.otherError m => m

/-- Python str() of a JSON value, used only in the free-text execution
description; the rendering of composite values is abstracted. -/
def pyStrOf : JValue → String
  | JValue.jNull => "None"
  | JValue.jBool b => if b then "True" else "False"
  | JValue.jNum n => intStr n
  | JValue.jStr s => s
  | JValue.jArr _ => "[...]"
  | JValue.jObj _ => "\x7b...\x7d"

/-- The handler's HTTP-style result: a status code and a JSON body (the
body is serialized with json.dumps in the source; the embedding keeps the
JSON document itself). -/
structure HandlerResult where
  statusCode : Nat
  body : JValue

/-- The result of one handler invocation together with the trace of
start_pipeline_execution calls it performed. -/
structure HandlerOutcome where
  result : HandlerResult
  startCalls : List StartRequest

/-- Lines 123-137 of pipeline_trigger.py: the except clauses.  KeyError
yields the 400 invalid-event response; any other exception yields the 500
response (the source's message misprint, pipelinel, is kept). -/
def handlerExcept : PyErr → HandlerResult
  | PyErr.keyError k =>
    ⟨400, JValue.jObj [("error", JValue.jStr ("Invalid event structure: \x27" ++ k ++ "\x27"))]⟩
  | e => ⟨500, JValue.jObj [("error", JValue.jStr ("Error starting pipelinel: " ++ pyStrOfErr e))]⟩

/-- Lines 87-103 of pipeline_trigger.py: the start_pipeline_execution
request the handler builds (time-based display name, free-text
description, fixed instance-type parameter). -/
def startRequestFor (w : HandlerWorld) (pipeline_name : String) (bucket_name object_key : JValue) :
    StartRequest :=
  ⟨pipeline_name, "auto-trigger-" ++ strftimeTimestamp w.utcNow,
   " Auto Triggered by S3 upload at s3://" ++ pyStrOf bucket_name ++ "/" ++ pyStrOf object_key,
   [⟨"InstanceType", "ml.m5.large"⟩]⟩

/-- Lines 43-137 of pipeline_trigger.py: the Lambda handler. -/
def handler (w : HandlerWorld) (event : JValue) : HandlerOutcome :=
  let configError : HandlerOutcome :=
    ⟨⟨500, JValue.jObj [("error", JValue.jStr "PIPELINE_NAME environment variable not set")]⟩, []⟩
  match w.pipelineNameEnv with
  | none => configError
  | some pipeline_name =>
    if pipeline_name = "" then configError
    else
      match extractTrigger event with
      | Except.error e => ⟨handlerExcept e, []⟩
      | Except.ok (bucket_name, object_key) =>
        if is_pipeline_running w.client pipeline_name then
          ⟨⟨200, JValue.jObj
              [("message", JValue.jStr "Skipped - pipeline already executing"),
               ("pipeline_name", JValue.jStr pipeline_name),
               ("trigger", JValue.jObj [("bucket", bucket_name), ("key", object_key)])]⟩, []⟩
        else
          let req : StartRequest := startRequestFor w pipeline_name bucket_name object_key
          match w.client.startPipelineExecution req with
          | Except.error e => ⟨handlerExcept e, [req]⟩
          | Except.ok response =>
            match response.pipelineExecutionArn with
            | none => ⟨handlerExcept (PyErr.keyError "PipelineExecutionArn"), [req]⟩
            | some execution_arn =>
              ⟨⟨200, JValue.jObj
                  [("message", JValue.jStr "Pipeline execution started"),
                   ("pipeline_name", JValue.jStr pipeline_name),
                   ("execution_arn", JValue.jStr execution_arn),
                   ("trigger", JValue.jObj [("bucket", bucket_name), ("key", object_key)])]⟩,
               [req]⟩

/-! ## The auto-trigger execution-name pattern -/

/-- The literal head of the execution-name pattern. -/
def autoTriggerLit : List Char := "auto-trigger-".data

/-- All characters are decimal digits. -/
def digitsOnly (l : List Char) : Bool := l.all Char.isDigit

/-- Full-string match for the regular expression: the literal
auto-trigger- followed by eight digits, a dash, and six digits. -/
def matchesAutoTrigger (s : String) : Prop :=
  ∃ d8 d6 : List Char,
    s.data = autoTriggerLit ++ d8 ++ ('-' :: d6) ∧
    d8.length = 8 ∧ d6.length = 6 ∧ digitsOnly d8 = true ∧ digitsOnly d6 = true

theorem matchesAutoTrigger_strftime (t : PyDatetime) :
    matchesAutoTrigger ("auto-trigger-" ++ strftimeTimestamp t) := by
  refine ⟨[decDigit (t.year / 1000), decDigit (t.year / 100), decDigit (t.year / 10),
           decDigit t.year, decDigit (t.month / 10), decDigit t.month,
           decDigit (t.day / 10), decDigit t.day],
          [decDigit (t.hour / 10), decDigit t.hour, decDigit (t.minute / 10),
           decDigit t.minute, decDigit (t.second / 10), decDigit t.second],
          ?_, rfl, rfl, ?_, ?_⟩
  · simp [strftimeTimestamp, string_data_append, pad4, pad2, autoTriggerLit]
  · simp [digitsOnly, decDigit_isDigit]
  · simp [digitsOnly, decDigit_isDigit]

/-! ## Handler theorems -/

/-- C1: for every event carrying detail.bucket.name and detail.object.key,
when the listing the handler requests (newest-first by creation time, at
most five entries) contains at least one execution whose status is
Executing or Stopping, the handler starts no new execution and returns
status 200 with body message "Skipped - pipeline already executing", the
pipeline name, and the trigger's bucket and key. -/
theorem c1_skip_when_pipeline_active
    (w : HandlerWorld) (event : JValue) (pn : String) (bn k : JValue) (resp : ListResponse)
    (hpn : w.pipelineNameEnv = some pn) (hpn' : pn ≠ "")
    (hev : extractTrigger event = Except.ok (bn, k))
    (hlist : w.client.listPipelineExecutions (listRequestFor pn) = Except.ok resp)
    (hactive : ∃ e ∈ resp.pipelineExecutionSummaries.getD [],
      e.pipelineExecutionStatus.getD "" ∈ active_statuses) :
    (handler w event).result.statusCode = 200 ∧
    (handler w event).result.body = JValue.jObj
      [("message", JValue.jStr "Skipped - pipeline already executing"),
       ("pipeline_name", JValue.jStr pn),
       ("trigger", JValue.jObj [("bucket", bn), ("key", k)])] ∧
    (handler w event).startCalls = [] := by
  have hrun : is_pipeline_running w.client pn = true := by
    unfold is_pipeline_running
    rw [hlist]
    obtain ⟨e, he, hst⟩ := hactive
    simp only [List.any_eq_true]
    exact ⟨e, he, by simpa using hst⟩
  unfold handler
  rw [hpn]
  simp [hpn', hev, hrun]

def c1Client : SageMakerClient :=
  ⟨fun _ => Except.ok ⟨some [⟨"arn:aws:sagemaker:ex1", some "Executing"⟩]⟩,
   fun _ => Except.ok ⟨some "arn:aws:sagemaker:new"⟩⟩

def c1World : HandlerWorld :=
  ⟨some "iris-xgboost-pipeline-tf", c1Client, ⟨2026, 10, 12, 1, 2, 3⟩⟩

/-- The well-formed example event of the spec. -/
def testEvent : JValue :=
  JValue.jObj [("detail", JValue.jObj
    [("bucket", JValue.jObj [("name", JValue.jStr "b")]),
     ("object", JValue.jObj [("key", JValue.jStr "data/train/new.csv")])])]

theorem c1_skip_when_pipeline_active_witness :
    (handler c1World testEvent).result.statusCode = 200 ∧
    (handler c1World testEvent).result.body = JValue.jObj
      [("message", JValue.jStr "Skipped - pipeline already executing"),
       ("pipeline_name", JValue.jStr "iris-xgboost-pipeline-tf"),
       ("trigger", JValue.jObj [("bucket", JValue.jStr "b"),
                                ("key", JValue.jStr "data/train/new.csv")])] ∧
    (handler c1World testEvent).startCalls = [] :=
  c1_skip_when_pipeline_active c1World testEvent "iris-xgboost-pipeline-tf"
    (JValue.jStr "b") (JValue.jStr "data/train/new.csv")
    ⟨some [⟨"arn:aws:sagemaker:ex1", some "Executing"⟩]⟩
    rfl (by decide) rfl rfl
    ⟨⟨"arn:aws:sagemaker:ex1", some "Executing"⟩, by simp, by simp [active_statuses]⟩

/-- C2: for every well-formed trigger payload, if the listing call raises
any exception, is_pipeline_running reports false and the handler proceeds
to issue the start call rather than failing or skipping. -/
theorem c2_fail_open_on_list_error
    (w : HandlerWorld) (event : JValue) (pn : String) (bn k : JValue) (e : PyErr)
    (hpn : w.pipelineNameEnv = some pn) (hpn' : pn ≠ "")
    (hev : extractTrigger event = Except.ok (bn, k))
    (hlist : w.client.listPipelineExecutions (listRequestFor pn) = Except.error e) :
    is_pipeline_running w.client pn = false ∧
    (handler w event).startCalls = [startRequestFor w pn bn k] := by
  have hrun : is_pipeline_running w.client pn = false := by
    unfold is_pipeline_running
    rw [hlist]
  refine ⟨hrun, ?_⟩
  unfold handler
  rw [hpn]
  simp only [hpn', if_false, hev, hrun, Bool.false_eq_true, ite_false]
  cases hs : w.client.startPipelineExecution (startRequestFor w pn bn k) with
  | error e2 => simp
  | ok r =>
    cases harn : r.pipelineExecutionArn with
    | none => simp [harn]
    | some a => simp [harn]

def c2Client : SageMakerClient :=
  ⟨fun _ => Except.error (PyErr.otherError "AccessDenied"),
   fun _ => Except.ok ⟨some "arn:aws:sagemaker:new"⟩⟩

def c2World : HandlerWorld :=
  ⟨some "iris-xgboost-pipeline-tf", c2Client, ⟨2026, 10, 12, 1, 2, 3⟩⟩

theorem c2_fail_open_on_list_error_witness :
    is_pipeline_running c2World.client "iris-xgboost-pipeline-tf" = false ∧
    (handler c2World testEvent).startCalls =
      [startRequestFor c2World "iris-xgboost-pipeline-tf"
        (JValue.jStr "b") (JValue.jStr "data/train/new.csv")] :=
  c2_fail_open_on_list_error c2World testEvent "iris-xgboost-pipeline-tf"
    (JValue.jStr "b") (JValue.jStr "data/train/new.csv")
    (PyErr.otherError "AccessDenied") rfl (by decide) rfl rfl

/-- C4: for every well-formed event, when no listed execution has an
active status, the handler issues exactly one start call whose display
name is auto-trigger- followed by the UTC timestamp at second precision
(matching the pattern: eight digits, a dash, six digits), and returns
status 200 with a body carrying the (non-empty) execution ARN the service
returned. -/
theorem c4_start_when_idle
    (w : HandlerWorld) (event : JValue) (pn : String) (bn k : JValue)
    (resp : ListResponse) (arn : String)
    (hpn : w.pipelineNameEnv = some pn) (hpn' : pn ≠ "")
    (hev : extractTrigger event = Except.ok (bn, k))
    (hlist : w.client.listPipelineExecutions (listRequestFor pn) = Except.ok resp)
    (hidle : ∀ e ∈ resp.pipelineExecutionSummaries.getD [],
      e.pipelineExecutionStatus.getD "" ∉ active_statuses)
    (hstart : w.client.startPipelineExecution (startRequestFor w pn bn k) =
      Except.ok ⟨some arn⟩)
    (harn : arn ≠ "")
    (_hutc : validUTC w.utcNow) :
    (handler w event).startCalls = [startRequestFor w pn bn k] ∧
    (startRequestFor w pn bn k).pipelineExecutionDisplayName =
      "auto-trigger-" ++ strftimeTimestamp w.utcNow ∧
    matchesAutoTrigger (startRequestFor w pn bn k).pipelineExecutionDisplayName ∧
    (handler w event).result.statusCode = 200 ∧
    (handler w event).result.body = JValue.jObj
      [("message", JValue.jStr "Pipeline execution started"),
       ("pipeline_name", JValue.jStr pn),
       ("execution_arn", JValue.jStr arn),
       ("trigger", JValue.jObj [("bucket", bn), ("key", k)])] ∧
    arn ≠ "" := by
  have hrun : is_pipeline_running w.client pn = false := by
    unfold is_pipeline_running
    rw [hlist]
    simp only [List.any_eq_false]
    intro e he
    have := hidle e he
    simpa using this
  refine ⟨?_, rfl, matchesAutoTrigger_strftime w.utcNow, ?_, ?_, harn⟩ <;>
  · unfold handler
    rw [hpn]
    simp [hpn', hev, hrun, hstart]

def c4Client : SageMakerClient :=
  ⟨fun _ => Except.ok ⟨some [⟨"arn:aws:sagemaker:ex1", some "Succeeded"⟩]⟩,
   fun _ => Except.ok ⟨some "arn:aws:sagemaker:new"⟩⟩

def c4World : HandlerWorld :=
  ⟨some "iris-xgboost-pipeline-tf", c4Client, ⟨2026, 10, 12, 1, 2, 3⟩⟩

theorem c4_start_when_idle_witness :
    (handler c4World testEvent).startCalls =
      [startRequestFor c4World "iris-xgboost-pipeline-tf"
        (JValue.jStr "b") (JValue.jStr "data/train/new.csv")] ∧
    (startRequestFor c4World "iris-xgboost-pipeline-tf"
        (JValue.jStr "b") (JValue.jStr "data/train/new.csv")).pipelineExecutionDisplayName =
      "auto-trigger-" ++ strftimeTimestamp c4World.utcNow ∧
    matchesAutoTrigger (startRequestFor c4World "iris-xgboost-pipeline-tf"
        (JValue.jStr "b") (JValue.jStr "data/train/new.csv")).pipelineExecutionDisplayName ∧
    (handler c4World testEvent).result.statusCode = 200 ∧
    (handler c4World testEvent).result.body = JValue.jObj
      [("message", JValue.jStr "Pipeline execution started"),
       ("pipeline_name", JValue.jStr "iris-xgboost-pipeline-tf"),
       ("execution_arn", JValue.jStr "arn:aws:sagemaker:new"),
       ("trigger", JValue.jObj [("bucket", JValue.jStr "b"),
                                ("key", JValue.jStr "data/train/new.csv")])] ∧
    "arn:aws:sagemaker:new" ≠ "" :=
  c4_start_when_idle c4World testEvent "iris-xgboost-pipeline-tf"
    (JValue.jStr "b") (JValue.jStr "data/train/new.csv")
    ⟨some [⟨"arn:aws:sagemaker:ex1", some "Succeeded"⟩]⟩ "arn:aws:sagemaker:new"
    rfl (by decide) rfl rfl
    (by intro e he; simp at he; subst he; decide)
    rfl (by decide) (by decide)

/-- C8: for every event whose trigger-field extraction raises a KeyError
(a missing expected field such as detail.object.key), the handler returns
status 400 with an error body naming the missing structure, and performs
no start call. -/
theorem c8_missing_field_400
    (w : HandlerWorld) (event : JValue) (pn k : String)
    (hpn : w.pipelineNameEnv = some pn) (hpn' : pn ≠ "")
    (hev : extractTrigger event = Except.error (PyErr.keyError k)) :
    (handler w event).result.statusCode = 400 ∧
    (handler w event).result.body =
      JValue.jObj [("error", JValue.jStr ("Invalid event structure: \x27" ++ k ++ "\x27"))] ∧
    (handler w event).startCalls = [] := by
  unfold handler
  rw [hpn]
  simp [hpn', hev, handlerExcept]

/-- The example event of the spec with detail.object.key missing. -/
def c8Event : JValue :=
  JValue.jObj [("detail", JValue.jObj
    [("bucket", JValue.jObj [("name", JValue.jStr "b")]),
     ("object", JValue.jObj [])])]

theorem c8_missing_field_400_witness :
    (handler c1World c8Event).result.statusCode = 400 ∧
    (handler c1World c8Event).result.body =
      JValue.jObj [("error", JValue.jStr "Invalid event structure: \x27key\x27")] ∧
    (handler c1World c8Event).startCalls = [] :=
  c8_missing_field_400 c1World c8Event "iris-xgboost-pipeline-tf" "key"
    rfl (by decide) rfl

/-- C10: for every input event value and every behaviour of the external
client (any responses, any raised exceptions), the handler returns a
result whose status code is 200, 400 or 500 and whose body is a JSON
object (serialized with json.dumps in the source); it never propagates an
exception, which the embedding reflects by handler being a total
function. -/
theorem c10_handler_always_returns (w : HandlerWorld) (event : JValue) :
    ((handler w event).result.statusCode = 200 ∨
     (handler w event).result.statusCode = 400 ∨
     (handler w event).result.statusCode = 500) ∧
    ∃ fields, (handler w event).result.body = JValue.jObj fields := by
  unfold handler
  cases hpn : w.pipelineNameEnv with
  | none => simp
  | some pn =>
    by_cases hpn' : pn = ""
    · simp [hpn']
    · simp only [hpn', if_false]
      cases hev : extractTrigger event with
      | error e => cases e <;> simp [handlerExcept]
      | ok bk =>
        obtain ⟨bn, k⟩ := bk
        by_cases hrun : is_pipeline_running w.client pn
        · simp [hrun]
        · simp only [hrun, Bool.false_eq_true, ite_false]
          cases hs : w.client.startPipelineExecution (startRequestFor w pn bn k) with
          | error e2 => cases e2 <;> simp [handlerExcept]
          | ok r =>
            cases harn : r.pipelineExecutionArn with
            | none => simp [harn, handlerExcept]
            | some a => simp [harn]

/-! ## Data splitter (src/ml/prepare_data.py) -/

/-- A pandas cell value: integer, float, string, or NaN. -/
inductive CsvCell where
  | cInt : Int → CsvCell
  | cRat : ℚ → CsvCell
  | cStr : String → CsvCell
  | cNull : CsvCell
deriving DecidableEq

/-- A dataframe row as column-name/value associations (pandas rows are
column-aligned; the association view keeps that alignment by
construction). -/
abbrev SRow := List (String × CsvCell)

/-- A parsed dataframe: column names and rows. -/
structure SplitFrame where
  columns : List String
  rows : List SRow
deriving DecidableEq

/-- The cells of column c over a list of rows (a missing value reads as
NaN). -/
def seriesOf (rows : List SRow) (c : String) : List CsvCell :=
  rows.map (fun r => (r.lookup c).getD CsvCell.cNull)

/-- df[c] as a list of cells. -/
def colCells (df : SplitFrame) (c : String) : List CsvCell :=
  seriesOf df.rows c

/-- df.drop(columns=c). -/
def dropColumn (df : SplitFrame) (c : String) : SplitFrame :=
  ⟨df.columns.filter (fun x => x != c), df.rows.map (fun r => r.filter (fun p => p.1 != c))⟩

/-- Overwrite column c with f of its cells (df[c] = df[c].map(f), at the
frame level). -/
def mapColumn (df : SplitFrame) (c : String) (f : CsvCell → CsvCell) : SplitFrame :=
  ⟨df.columns, df.rows.map (fun r => r.map (fun p => if p.1 = c then (p.1, f p.2) else p))⟩

/-- df[cs]: reorder/select columns. -/
def selectColumns (df : SplitFrame) (cs : List String) : SplitFrame :=
  ⟨cs, df.rows.map (fun r => cs.map (fun c => (c, (r.lookup c).getD CsvCell.cNull)))⟩

/-- Lines 47-51 of prepare_data.py: the label mapping dictionary. -/
def label_mapping (c : CsvCell) : Option Int :=
  match c with
  | CsvCell.cStr "Iris-setosa" => some 0
  | CsvCell.cStr "Iris-versicolor" => some 1
  | CsvCell.cStr "Iris-virginica" => some 2
  | _ => none

/-- Series.map(dict) on one cell: values not in the dictionary become NaN. -/
def mapSpeciesCell (c : CsvCell) : CsvCell :=
  match label_mapping c with
  | some n => CsvCell.cInt n
  | none => CsvCell.cNull

/-- A pseudo-random generator state (numpy's RandomState, abstracted to a
linear congruential generator). -/
structure RngState where
  seed : Nat
deriving DecidableEq

def rngNext (g : RngState) : Nat × RngState :=
  let s := (g.seed * 1103515245 + 12345) % 2147483648
  (s, ⟨s⟩)

/-- A deterministic permutation drawn from the generator (the exact
permutation sklearn applies is abstracted; the verified claims depend only
on the permutation being a deterministic function of the generator
state). -/
def pseudoShuffle (g : RngState) (l : List α) : List α × RngState :=
  let (r, g2) := rngNext g
  let k := r % (l.length + 1)
  (l.drop k ++ l.take k, g2)

/-- The two parts returned by train_test_split, together with the ambient
generator state after the call. -/
structure TTSResult where
  trainPart : List SRow
  testPart : List SRow
  rng : RngState

/-- Model of sklearn.model_selection.train_test_split: when random_state
is an integer, a fresh generator seeded with it is used and the ambient
generator is left untouched (sklearn's check_random_state); when it is
None, the ambient generator is used and advanced.  The stratify argument
influences which rows land in which part in sklearn; the embedding keeps
the split a deterministic function of the rows, the test size and the
generator, which is all the verified claims depend on. -/
def train_test_split (rows : List SRow) (test_size : ℚ)
    (_stratify : List CsvCell) (random_state : Option Nat) (g : RngState) : TTSResult :=
  match random_state with
  | some s =>
    let shuffled := (pseudoShuffle ⟨s⟩ rows).1
    let nTest := (test_size * rows.length).floor.toNat
    ⟨shuffled.drop nTest, shuffled.take nTest, g⟩
  | none =>
    let (shuffled, g2) := pseudoShuffle g rows
    let nTest := (test_size * rows.length).floor.toNat
    ⟨shuffled.drop nTest, shuffled.take nTest, g2⟩

/-- Rendering of one cell in to_csv output. -/
def renderCell : CsvCell → String
  | CsvCell.cInt n => intStr n
  | CsvCell.cRat q => floatStr q
  | CsvCell.cStr s => s
  | CsvCell.cNull => ""

/-- to_csv with index=False and header=False: one comma-joined line per
row, each with a trailing newline. -/
def renderCsv (rows : List SRow) : String :=
  String.join (rows.map (fun r =>
    String.intercalate "," (r.map (fun p => renderCell p.2)) ++ "\n"))

/-- Count of each distinct cell in order of first appearance (the pandas
value_counts rendering layout is abstracted to a deterministic one-line
form). -/
def cellCounts (cells : List CsvCell) : List (CsvCell × Nat) :=
  cells.foldl
    (fun acc x => if acc.any (fun p => p.1 == x) then acc else acc ++ [(x, cells.count x)]) []

def cellCountsStr (cells : List CsvCell) : String :=
  String.intercalate "; " ((cellCounts cells).map (fun p => renderCell p.1 ++ ": " ++ natStr p.2))

/-- The effects prepare_three_way_split performs, in program order within
each kind: printed lines, created directories, file writes (path and byte
content), S3 uploads (local path, bucket, key). -/
structure SplitEffects where
  stdout : List String
  dirsCreated : List String
  fileWrites : List (String × String)
  s3Uploads : List (String × String × String)
deriving DecidableEq

/-- The environment of one splitter invocation: the parsed raw csv if the
file exists (absent models FileNotFoundError, which the source catches),
the S3_BUCKET variable, and the ambient global generator state. -/
structure SplitEnv where
  rawFile : Option SplitFrame
  s3BucketEnv : Option String
  globalRng : RngState
deriving DecidableEq

/-- Lines 8-125 of prepare_data.py. -/
def prepare_three_way_split (env : SplitEnv) : Except String Unit × SplitEffects :=
  let input_file := "data/raw/iris.csv"
  let output_dir := "split_data"
  let train_ratio : ℚ := 6/10
  let val_ratio : ℚ := 2/10
  let test_ratio : ℚ := 2/10
  let random_state : Nat := 42
  if |train_ratio + val_ratio + test_ratio - 1| > 1/1000 then
    (Except.error "Ratios must sum up to 1", ⟨[], [], [], []⟩)
  else
    match env.rawFile with
    | none =>
      (Except.ok (), ⟨["Dataset " ++ input_file ++ " not found"], [output_dir], [], []⟩)
    | some df0 =>
      let out1 := ["Total Samples: " ++ natStr df0.rows.length,
                   "Total Columns: " ++ natStr df0.columns.length]
      if "Species" ∈ df0.columns then
        let out2 := out1 ++
          [" Original Class Distribution:  " ++ cellCountsStr (colCells df0 "Species")]
        let df1 := if "Id" ∈ df0.columns then dropColumn df0 "Id" else df0
        let df2 := mapColumn df1 "Species" mapSpeciesCell
        if CsvCell.cNull ∈ colCells df2 "Species" then
          (Except.error "Label mapping failed. Unexpected Species values found.",
           ⟨out2, [output_dir], [], []⟩)
        else
          let df3 := selectColumns df2 ("Species" :: df2.columns.filter (fun c => c != "Species"))
          let out3 := out2 ++ ["Label distribution:", cellCountsStr (colCells df3 "Species")]
          let tts1 := train_test_split df3.rows test_ratio (colCells df3 "Species")
            (some random_state) env.globalRng
          let test_df := tts1.testPart
          let val_ratio_adjusted := val_ratio / (train_ratio + val_ratio)
          let tts2 := train_test_split tts1.trainPart val_ratio_adjusted
            (seriesOf tts1.trainPart "Species") (some random_state) tts1.rng
          let train_df := tts2.trainPart
          let val_df := tts2.testPart
          let out4 := out3 ++
            [" Training Split: " ++ natStr train_df.length ++ " samples",
             " Validation Split: " ++ natStr val_df.length ++ " samples",
             " Test Split: " ++ natStr test_df.length ++ " samples",
             " Total Samples: " ++
               natStr (train_df.length + val_df.length + test_df.length) ++ " samples"]
          let train_path := output_dir ++ "/iris_train.csv"
          let val_path := output_dir ++ "/iris_validation.csv"
          let test_path := output_dir ++ "/iris_test.csv"
          let writes := [(train_path, renderCsv train_df), (val_path, renderCsv val_df),
                         (test_path, renderCsv test_df)]
          let out5 := out4 ++
            ["Files saved at " ++ output_dir,
             " Training Dataset at " ++ train_path,
             " Validation Dataset at " ++ val_path,
             " Test Dataset at " ++ test_path,
             "Training set: " ++ natStr train_df.length ++ " samples: ",
             cellCountsStr (seriesOf train_df "Species"),
             "Validation set: " ++ natStr val_df.length ++ " samples: ",
             cellCountsStr (seriesOf val_df "Species"),
             "Test set: " ++ natStr test_df.length ++ " samples: ",
             cellCountsStr (seriesOf test_df "Species")]
          let bucket := env.s3BucketEnv.getD "terraform-sagemaker-firstbucket"
          let uploads := [(train_path, bucket, "data/train/iris.csv"),
                          (val_path, bucket, "data/validation/iris.csv"),
                          (test_path, bucket, "data/test/iris.csv")]
          (Except.ok (), ⟨out5 ++ ["Uploaded files to S3."], [output_dir], writes, uploads⟩)
      else
        (Except.error "\x27Species\x27 Column not found", ⟨out1, [output_dir], [], []⟩)

/-! ## Splitter lemmas and theorems -/

theorem lookup_filter_ne (r : SRow) (c d : String) (h : c ≠ d) :
    (r.filter (fun p => p.1 != d)).lookup c = r.lookup c := by
  induction r with
  | nil => rfl
  | cons a t ih =>
    obtain ⟨k, v⟩ := a
    by_cases hkd : k = d
    · subst hkd
      have h2 : (c == k) = false := by simp [h]
      simp [List.filter_cons, List.lookup, h2, ih]
    · have h1 : (k != d) = true := by simp [hkd]
      simp [List.filter_cons, h1, List.lookup, ih]

theorem lookup_map_if (r : SRow) (c : String) (f : CsvCell → CsvCell) :
    (r.map (fun p => if p.1 = c then (p.1, f p.2) else p)).lookup c =
      (r.lookup c).map f := by
  induction r with
  | nil => rfl
  | cons a t ih =>
    obtain ⟨k, v⟩ := a
    simp only [List.map_cons]
    by_cases hkc : k = c
    · subst hkc
      rw [if_pos rfl]
      simp [List.lookup, ih]
    · rw [if_neg hkc]
      have h2 : (c == k) = false := by
        simp only [beq_eq_false_iff_ne]
        exact fun hh => hkc hh.symm
      simp [List.lookup, h2, ih]

theorem colCells_mapColumn (df : SplitFrame) (c : String) (f : CsvCell → CsvCell) :
    colCells (mapColumn df c f) c =
      df.rows.map (fun r => ((r.lookup c).map f).getD CsvCell.cNull) := by
  unfold colCells seriesOf mapColumn
  simp only [List.map_map, Function.comp]
  simp [lookup_map_if]

theorem rows_dropColumn (df : SplitFrame) (c : String) :
    (dropColumn df c).rows = df.rows.map (fun r => r.filter (fun p => p.1 != c)) := rfl

theorem species_null_cell (r : SRow)
    (hbad : label_mapping ((r.lookup "Species").getD CsvCell.cNull) = none) :
    ((r.lookup "Species").map mapSpeciesCell).getD CsvCell.cNull = CsvCell.cNull := by
  cases hc : r.lookup "Species" with
  | none => rfl
  | some c0 =>
    rw [hc] at hbad
    simp only [Option.getD_some] at hbad
    simp [mapSpeciesCell, hbad]

theorem species_null_after_map (df0 : SplitFrame) (r : SRow)
    (hr : r ∈ df0.rows)
    (hbad : label_mapping ((r.lookup "Species").getD CsvCell.cNull) = none) :
    CsvCell.cNull ∈ colCells
      (mapColumn (if "Id" ∈ df0.columns then dropColumn df0 "Id" else df0)
        "Species" mapSpeciesCell) "Species" := by
  have hSI : "Species" ≠ "Id" := by decide
  by_cases hid : "Id" ∈ df0.columns
  · rw [if_pos hid, colCells_mapColumn, rows_dropColumn, List.map_map]
    refine List.mem_map.mpr ⟨r, hr, ?_⟩
    simp only [Function.comp_apply]
    rw [lookup_filter_ne r "Species" "Id" hSI]
    exact species_null_cell r hbad
  · rw [if_neg hid, colCells_mapColumn]
    refine List.mem_map.mpr ⟨r, hr, ?_⟩
    exact species_null_cell r hbad

/-- C6: on identical input (same parsed raw file, same bucket variable),
two invocations of prepare_three_way_split produce identical results —
including byte-identical train, validation and test file contents —
whatever the ambient random-generator states of the two runs are, because
both train_test_split calls fix random_state 42. -/
theorem c6_split_deterministic (raw : Option SplitFrame) (bucketEnv : Option String)
    (g g2 : RngState) :
    prepare_three_way_split ⟨raw, bucketEnv, g⟩ =
      prepare_three_way_split ⟨raw, bucketEnv, g2⟩ := by
  cases raw <;> rfl

/-- C7: for every input dataset that has a Species column but contains at
least one row whose label is not one of the three known class names, the
splitter fails with the label-mapping error and performs no file write and
no upload (fail-fast, no partial output). -/
theorem c7_unknown_label_fail_fast (env : SplitEnv) (df0 : SplitFrame) (r : SRow)
    (hraw : env.rawFile = some df0)
    (hcol : "Species" ∈ df0.columns)
    (hr : r ∈ df0.rows)
    (hbad : label_mapping ((r.lookup "Species").getD CsvCell.cNull) = none) :
    (prepare_three_way_split env).1 =
      Except.error "Label mapping failed. Unexpected Species values found." ∧
    (prepare_three_way_split env).2.fileWrites = [] ∧
    (prepare_three_way_split env).2.s3Uploads = [] := by
  have hmem := species_null_after_map df0 r hr hbad
  have hratio : ¬(|(6 : ℚ)/10 + 2/10 + 2/10 - 1| > 1/1000) := by norm_num
  unfold prepare_three_way_split
  rw [hraw]
  simp only [if_neg hratio, if_pos hcol, if_pos hmem]
  refine ⟨?_, ?_, ?_⟩ <;> simp

def c7Row : SRow :=
  [("Id", CsvCell.cInt 1), ("SepalLengthCm", CsvCell.cRat 5),
   ("Species", CsvCell.cStr "Iris-unknown")]

def c7Frame : SplitFrame := ⟨["Id", "SepalLengthCm", "Species"], [c7Row]⟩

def c7Env : SplitEnv := ⟨some c7Frame, none, ⟨0⟩⟩

theorem c7_unknown_label_fail_fast_witness :
    (prepare_three_way_split c7Env).1 =
      Except.error "Label mapping failed. Unexpected Species values found." ∧
    (prepare_three_way_split c7Env).2.fileWrites = [] ∧
    (prepare_three_way_split c7Env).2.s3Uploads = [] :=
  c7_unknown_label_fail_fast c7Env c7Frame c7Row rfl (by decide)
    (List.mem_singleton.mpr rfl) rfl

/-- C9: when the raw input file does not exist, the splitter logs the
missing-dataset message and returns normally, performing no file write and
no upload. -/
theorem c9_missing_input_noop (env : SplitEnv) (hraw : env.rawFile = none) :
    (prepare_three_way_split env).1 = Except.ok () ∧
    (prepare_three_way_split env).2.fileWrites = [] ∧
    (prepare_three_way_split env).2.s3Uploads = [] ∧
    "Dataset data/raw/iris.csv not found" ∈ (prepare_three_way_split env).2.stdout := by
  have hratio : ¬(|(6 : ℚ)/10 + 2/10 + 2/10 - 1| > 1/1000) := by norm_num
  unfold prepare_three_way_split
  rw [hraw]
  simp only [if_neg hratio]
  refine ⟨?_, ?_, ?_, ?_⟩ <;> simp

def c9Env : SplitEnv := ⟨none, none, ⟨7⟩⟩

theorem c9_missing_input_noop_witness :
    (prepare_three_way_split c9Env).1 = Except.ok () ∧
    (prepare_three_way_split c9Env).2.fileWrites = [] ∧
    (prepare_three_way_split c9Env).2.s3Uploads = [] ∧
    "Dataset data/raw/iris.csv not found" ∈ (prepare_three_way_split c9Env).2.stdout :=
  c9_missing_input_noop c9Env rfl

/-! ## Pipeline definition: conditional registration
(src/ml/pipeline_terraform.py and src/ml/training/evaluate.py) -/

/-- Per-class metrics of the evaluation report (evaluate.py lines 71-88). -/
structure ClassMetrics where
  metricPrecision : ℚ
  metricRecall : ℚ
  metricF1 : ℚ
  metricSupport : Int
deriving DecidableEq

/-- The evaluation report document written by evaluate.py: accuracy,
confusion matrix, per-class metrics, macro averages. -/
structure EvalReport where
  accuracy : ℚ
  confusion_matrix : List (List Int)
  per_class_metrics : List (String × ClassMetrics)
  avgPrecision : ℚ
  avgRecall : ℚ
  avgF1 : ℚ
deriving DecidableEq

/-- The scalar value a single-segment JSON-path lookup into the evaluation
report resolves to: "accuracy" is the only scalar top-level field of the
document evaluate.py writes. -/
def EvalReport.jsonScalar (r : EvalReport) (path : String) : Option ℚ :=
  if path = "accuracy" then some r.accuracy else none

/-- A JsonGet reference (pipeline_terraform.py lines 173-177). -/
structure JsonGetRef where
  step_name : String
  property_file : String
  json_path : String
deriving DecidableEq

/-- A ConditionGreaterThanOrEqualTo (pipeline_terraform.py lines 172-179). -/
structure ConditionGTE where
  left : JsonGetRef
  right : ℚ
deriving DecidableEq

/-- A ConditionStep of the generated pipeline definition
(pipeline_terraform.py lines 182-187); steps are referred to by name. -/
structure ConditionStepDef where
  name : String
  conditions : List ConditionGTE
  if_steps : List String
  else_steps : List String
deriving DecidableEq

/-- Lines 172-179 of pipeline_terraform.py: the accuracy condition,
comparing the JSON-path "accuracy" of the EvaluationReport property file
of the evaluation step against the fixed threshold 0.90. -/
def accuracy_condition : ConditionGTE :=
  ⟨⟨"TF_EvaluateXGBoostModel", "EvaluationReport", "accuracy"⟩, 9/10⟩

/-- The name of the RegisterModel step (pipeline_terraform.py line 159). -/
def register_step_name : String := "RegisterBestModel"

/-- Lines 182-187 of pipeline_terraform.py: the conditional step, with the
registration step as its only if-branch step and an empty else branch. -/
def condition_step : ConditionStepDef :=
  ⟨"CheckAccuracyThreshold", [accuracy_condition], [register_step_name], []⟩

/-- Evaluation of a ConditionGreaterThanOrEqualTo against a report: the
JSON-path lookup's value must be at least the right operand. -/
def evalConditionGTE (r : EvalReport) (c : ConditionGTE) : Bool :=
  match r.jsonScalar c.left.json_path with
  | some v => decide (c.right ≤ v)
  | none => false

/-- Modelled from the spec: the step-execution engine is the managed
orchestration service, not code of this repository.  Per the spec, a
condition step evaluates its conditions against the referenced report,
executes the if-branch steps when all conditions hold and the else-branch
steps otherwise, and the run completes either way. -/
def ConditionStepDef.executedSteps (s : ConditionStepDef) (r : EvalReport) : List String :=
  if s.conditions.all (fun c => evalConditionGTE r c) then s.if_steps else s.else_steps

/-- C3: in the generated pipeline definition, the registration step is
among the steps the condition step executes exactly when the accuracy
read from the evaluation report is at least 0.90; and in every case the
condition step executes either no step or exactly the registration step,
so below the threshold nothing is registered and the run still completes. -/
theorem c3_register_iff_accuracy_threshold (r : EvalReport) :
    (register_step_name ∈ condition_step.executedSteps r ↔ (9/10 : ℚ) ≤ r.accuracy) ∧
    (condition_step.executedSteps r = [] ∨
     condition_step.executedSteps r = [register_step_name]) := by
  unfold ConditionStepDef.executedSteps condition_step
  by_cases h : (9 : ℚ)/10 ≤ r.accuracy <;>
    simp [evalConditionGTE, accuracy_condition, EvalReport.jsonScalar, h]

/-! ## The training metric line contract -/

/-- The literal head of the metric line. -/
def mloglossLit : List Char := "validation:mlogloss=".data

/-- Characters a float rendering consists of: digits and dots (the capture
class of the tuner's regular expression). -/
def floatCharsOK (l : List Char) : Bool := l.all (fun c => c.isDigit || c == '.')

/-- Full-line match for: the literal validation:mlogloss= followed by a
nonempty run of digit-or-dot characters and a final semicolon — the exact
form validation:mlogloss=(float); of the metric contract. -/
def isMloglossLineL (cs : List Char) : Bool :=
  decide (cs.take 20 = mloglossLit) &&
  (decide ((cs.drop 20).getLast? = some ';') &&
   floatCharsOK (cs.drop 20).dropLast &&
   !(cs.drop 20).dropLast.isEmpty)

def isMloglossLine (s : String) : Bool := isMloglossLineL s.data

/-- The tuner's metric regular expression (pipeline_terraform.py line 91)
as an unanchored search: some position of the line starts with
validation:mlogloss= followed by at least one digit-or-dot character. -/
def tunerRegexMatches (s : String) : Bool :=
  s.data.tails.any (fun cs =>
    decide (cs.take 20 = mloglossLit) &&
    ((cs.drop 20).take 1).all (fun c => c.isDigit || c == '.') &&
    !(cs.drop 20).isEmpty)

theorem isMloglossLineL_cons_false (c : Char) (cs : List Char) (h : c ≠ 'v') :
    isMloglossLineL (c :: cs) = false := by
  have hne : ¬((c :: cs).take 20 = mloglossLit) := by
    intro heq
    apply h
    have h2 : ((c :: cs).take 20).headD 'A' = mloglossLit.headD 'A' := by rw [heq]
    have h3 : ((c :: cs).take 20).headD 'A' = c := rfl
    have h4 : mloglossLit.headD 'A' = 'v' := rfl
    rw [h3, h4] at h2
    exact h2
  unfold isMloglossLineL
  rw [decide_eq_false hne]
  rfl

theorem isMloglossLine_of_head (s : String) (c : Char) (cs : List Char)
    (hs : s.data = c :: cs) (hc : c ≠ 'v') : isMloglossLine s = false := by
  unfold isMloglossLine
  rw [hs]
  exact isMloglossLineL_cons_false c cs hc

theorem isMloglossLine_const_head (p x : String) (c : Char) (cs : List Char)
    (hp : p.data = c :: cs) (hc : c ≠ 'v') :
    isMloglossLine (p ++ x) = false := by
  apply isMloglossLine_of_head _ c (cs ++ x.data)
  · rw [string_data_append, hp, List.cons_append]
  · exact hc

theorem isMloglossLine_append2_head (p x y : String) (c : Char) (cs : List Char)
    (hp : p.data = c :: cs) (hc : c ≠ 'v') :
    isMloglossLine (p ++ x ++ y) = false := by
  apply isMloglossLine_of_head _ c ((cs ++ x.data) ++ y.data)
  · rw [string_data_append, string_data_append, hp, List.cons_append, List.cons_append]
  · exact hc

theorem all_or_left (l : List Char) (p q : Char → Bool) (h : l.all p = true) :
    l.all (fun c => p c || q c) = true := by
  simp only [List.all_eq_true] at h ⊢
  intro c hc
  simp [h c hc]

theorem floatStr_nonneg_chars (q : ℚ) (hq : 0 ≤ q) :
    floatCharsOK (floatStr q).data = true := by
  unfold floatStr
  rw [if_neg (not_lt.mpr hq)]
  unfold floatCharsOK
  rw [string_data_append, string_data_append, List.all_append, List.all_append]
  refine (Bool.and_eq_true _ _).mpr ⟨(Bool.and_eq_true _ _).mpr ⟨?_, ?_⟩, ?_⟩
  · exact all_or_left _ _ _ (natStr_data_all_digits _)
  · rfl
  · unfold pad6
    simp [decDigit_isDigit]

theorem floatStr_nonneg_head (q : ℚ) (hq : 0 ≤ q) :
    ∃ c cs, (floatStr q).data = c :: cs ∧ c.isDigit = true := by
  unfold floatStr
  rw [if_neg (not_lt.mpr hq)]
  obtain ⟨c, cs, hd, hc⟩ := natStr_head_digit (Int.toNat ⌊q⌋)
  refine ⟨c, cs ++ ("." ++ pad6 (fracDigits6 q)).data, ?_, hc⟩
  rw [string_data_append, string_data_append, hd]
  simp [List.cons_append, List.append_assoc, string_data_append]

theorem intStr_head (n : Int) : ∃ c cs, (intStr n).data = c :: cs ∧ c ≠ 'v' := by
  unfold intStr
  by_cases h : n < 0
  · refine ⟨'-', (natStr n.natAbs).data, ?_, by decide⟩
    rw [if_pos h, string_data_append]
    rfl
  · obtain ⟨c, cs, hd, hc⟩ := natStr_head_digit n.natAbs
    refine ⟨c, cs, by rw [if_neg h]; exact hd, ?_⟩
    intro hcv
    rw [hcv] at hc
    exact absurd hc (by decide)

theorem isMloglossLine_metric (m : ℚ) (hm : 0 ≤ m) :
    isMloglossLine ("validation:mlogloss=" ++ floatStr m ++ ";") = true := by
  have hdata : ("validation:mlogloss=" ++ floatStr m ++ ";").data =
      mloglossLit ++ ((floatStr m).data ++ [';']) := by
    rw [string_data_append, string_data_append]
    rfl
  have hlen : mloglossLit.length = 20 := rfl
  unfold isMloglossLine isMloglossLineL
  rw [hdata]
  have htake : (mloglossLit ++ ((floatStr m).data ++ [';'])).take 20 = mloglossLit := by
    rw [← hlen]
    exact List.take_left _ _
  have hdrop : (mloglossLit ++ ((floatStr m).data ++ [';'])).drop 20 =
      (floatStr m).data ++ [';'] := by
    rw [← hlen]
    exact List.drop_left _ _
  rw [htake, hdrop, List.getLast?_concat, List.dropLast_concat]
  obtain ⟨c, cs, hd, _⟩ := floatStr_nonneg_head m hm
  have hchars := floatStr_nonneg_chars m hm
  rw [hd] at hchars
  simp [hchars, hd]

theorem tunerRegex_metric (m : ℚ) (hm : 0 ≤ m) :
    tunerRegexMatches ("validation:mlogloss=" ++ floatStr m ++ ";") = true := by
  have hdata : ("validation:mlogloss=" ++ floatStr m ++ ";").data =
      mloglossLit ++ ((floatStr m).data ++ [';']) := by
    rw [string_data_append, string_data_append]
    rfl
  have hlen : mloglossLit.length = 20 := rfl
  unfold tunerRegexMatches
  rw [List.any_eq_true]
  refine ⟨("validation:mlogloss=" ++ floatStr m ++ ";").data,
    (List.mem_tails _ _).mpr (List.suffix_refl _), ?_⟩
  rw [hdata]
  have htake : (mloglossLit ++ ((floatStr m).data ++ [';'])).take 20 = mloglossLit := by
    rw [← hlen]
    exact List.take_left _ _
  have hdrop : (mloglossLit ++ ((floatStr m).data ++ [';'])).drop 20 =
      (floatStr m).data ++ [';'] := by
    rw [← hlen]
    exact List.drop_left _ _
  rw [htake, hdrop]
  obtain ⟨c, cs, hd, hc⟩ := floatStr_nonneg_head m hm
  rw [hd]
  simp [List.cons_append, hc]

/-! ## Training entry point (src/ml/training/train.py) -/

/-- A parsed training csv: the label column and the feature rows (the
schema fixed at train.py lines 30-31). -/
structure TrainData where
  labels : List Int
  features : List (List ℚ)
deriving DecidableEq

/-- The argparse arguments of train.py (lines 12-24), with their defaults
supplied by the caller. -/
structure TrainArgs where
  data_dir : String
  model_dir : String
  num_round : Nat
  max_depth : Nat
  eta : ℚ
  validation_dir : Option String
  num_class : Nat
  objective : String

/-- The environment of one training run: the SM_CHANNEL_VALIDATION
variable, the filesystem (directory listings, existence, parsed csv
contents), and the outcome of the XGBoost training call (the per-round
validation mlogloss history and the sklearn-computed validation accuracy
and classification report rendering). -/
structure TrainEnv where
  sm_channel_validation : Option String
  listdir : String → List String
  path_exists : String → Bool
  read_csv : String → TrainData
  xgb_mlogloss : List ℚ
  val_accuracy : ℚ
  classification_report_lines : List String

/-- The observable outcome of a completed training run: the printed
standard-output lines and the path the model was saved to. -/
structure TrainResult where
  stdout : List String
  model_path : String

/-- The sixty-equals-signs banner printed by train.py. -/
def eqBanner : String := String.mk (List.replicate 60 '=')

/-- Count of each distinct label in order of first appearance (the pandas
value_counts ordering is abstracted). -/
def labelCounts (l : List Int) : List (Int × Nat) :=
  l.foldl
    (fun acc x => if acc.any (fun p => p.1 == x) then acc else acc ++ [(x, l.count x)]) []

/-- The lines of a pandas Series.value_counts rendering: one line per
distinct label, then the dtype trailer. -/
def valueCountsLines (l : List Int) : List String :=
  (labelCounts l).map (fun p => intStr p.1 ++ "    " ++ natStr p.2) ++
    ["Name: count, dtype: int64"]

/-- An f-string whose embedded value follows a space renders the first
line of a multi-line value after that space. -/
def indentFirst : List String → List String
  | [] => []
  | l :: ls => (" " ++ l) :: ls

/-- Python str() of an optional string (None renders as None). -/
def pyOptStr : Option String → String
  | none => "None"
  | some s => s

/-- Python repr of a list of strings. -/
def pyStrListRepr (l : List String) : String :=
  "[" ++ String.intercalate ", " (l.map (fun s => "\x27" ++ s ++ "\x27")) ++ "]"

/-- The repr of the params dictionary printed at train.py line 97. -/
def paramsRepr (args : TrainArgs) : String :=
  "\x7b\x27objective\x27: \x27" ++ args.objective ++ "\x27, \x27num_class\x27: " ++
  natStr args.num_class ++ ", \x27max_depth\x27: " ++ natStr args.max_depth ++
  ", \x27eta\x27: " ++ floatStr args.eta ++ ", \x27eval_metric\x27: \x27mlogloss\x27\x7d"

/-- Line 54 of train.py: the validation directory is the
SM_CHANNEL_VALIDATION variable when set, otherwise the argument. -/
def resolveValidationDir (env : TrainEnv) (args : TrainArgs) : Option String :=
  match env.sm_channel_validation with
  | some v => some v
  | none => args.validation_dir

/-- The condition under which train.py finds validation data (lines
58-63): a resolved validation directory that is truthy (neither None nor
empty), exists, and lists at least one file. -/
def validationFound (env : TrainEnv) (args : TrainArgs) : Bool :=
  match resolveValidationDir env args with
  | some vd => !(vd == "") && env.path_exists vd && !(env.listdir vd).isEmpty
  | none => false

/-- Lines 57-84 of train.py: the validation-data discovery branch.  The
first component is whether validation data was found (evals nonempty and
dval set); the second is the lines this branch prints. -/
def validationBranch (env : TrainEnv) (args : TrainArgs) : Bool × List String :=
  match resolveValidationDir env args with
  | some vd =>
    if vd = "" then (false, ["WARNING: No validation directory provided"])
    else if env.path_exists vd then
      match env.listdir vd with
      | [] => (false, ["Files in validation dir: []",
                       "WARNING: No files found in " ++ vd])
      | v :: vs =>
        let val_path := vd ++ "/" ++ v
        let df_val := env.read_csv val_path
        (true,
         ["Files in validation dir: " ++ pyStrListRepr (v :: vs),
          "Loading validation data from: " ++ val_path,
          "Validation Samples: " ++ natStr df_val.labels.length,
          "Validation class distribution:"] ++ valueCountsLines df_val.labels)
    else (false, ["WARNING: Validation directory does not exist: " ++ vd])
  | none => (false, ["WARNING: No validation directory provided"])

/-- Lines 11-148 of train.py, the training entry point.  Standard output
is returned as the list of printed text lines (multi-line prints split at
their newlines); the XGBoost library's own per-round logging is not one of
the entry point's print statements and is abstracted away; reading a csv
is modelled as total (the parsed data comes from the environment); saving
the model is reflected in the returned model path.  The only failure
points are the empty-training-directory listing (line 27) and the
last-element access into an empty mlogloss history (line 127). -/
def trainMain (env : TrainEnv) (args : TrainArgs) : Except String TrainResult :=
  match env.listdir args.data_dir with
  | [] => Except.error "IndexError: list index out of range"
  | f :: _ =>
    let data_path := args.data_dir ++ "/" ++ f
    let df := env.read_csv data_path
    let out1 :=
      ["Loading training data from: " ++ data_path,
       "Training data shape: (" ++ natStr df.labels.length ++ ", 5)",
       "Class distribution:"] ++ indentFirst (valueCountsLines df.labels)
    let validation_dir := resolveValidationDir env args
    let out2 := ["Checking validation dir: " ++ pyOptStr validation_dir]
    let branch := validationBranch env args
    let out4 := [eqBanner, ""]
    let out5 := ["Training with parameters: " ++ paramsRepr args,
                 "Number of rounds: " ++ natStr args.num_round, ""]
    let model_path := args.model_dir ++ "/model.bst"
    if branch.1 then
      match env.xgb_mlogloss.getLast? with
      | none => Except.error "IndexError: list index out of range"
      | some final_mlogloss =>
        let metricLines :=
          ["", eqBanner, "VALIDATION METRICS", eqBanner,
           "validation:mlogloss=" ++ floatStr final_mlogloss ++ ";",
           "validation:accuracy=" ++ floatStr env.val_accuracy,
           "", "Validation Accuracy: " ++ floatStr env.val_accuracy,
           "Validation MLogloss: " ++ floatStr final_mlogloss,
           "", "Classification Report:"] ++ env.classification_report_lines ++
          [eqBanner, ""]
        Except.ok ⟨out1 ++ out2 ++ branch.2 ++ out4 ++ out5 ++ metricLines ++
          ["Model saved to " ++ model_path], model_path⟩
    else
      Except.ok ⟨out1 ++ out2 ++ branch.2 ++ out4 ++ out5 ++
        ["", " WARNING: No validation metrics computed!",
         "   evals is empty: True", "   dval is None: True", ""] ++
        ["Model saved to " ++ model_path], model_path⟩

/-! ## Training theorems -/

theorem all_not_mlogloss_of_forall (L : List String)
    (h : ∀ s ∈ L, isMloglossLine s = false) :
    L.all (fun l => !isMloglossLine l) = true := by
  rw [List.all_eq_true]
  intro l hl
  rw [h l hl]
  rfl

theorem valueCountsLines_clean (l : List Int) :
    ∀ s ∈ valueCountsLines l, isMloglossLine s = false := by
  intro s hs
  unfold valueCountsLines at hs
  rw [List.mem_append] at hs
  rcases hs with hs | hs
  · obtain ⟨p, _hp, rfl⟩ := List.mem_map.mp hs
    obtain ⟨c, cs, hd, hc⟩ := intStr_head p.1
    apply isMloglossLine_of_head _ c ((cs ++ ("    ").data) ++ (natStr p.2).data)
    · rw [string_data_append, string_data_append, hd, List.cons_append, List.cons_append]
    · exact hc
  · rw [List.mem_singleton] at hs
    subst hs
    rfl

theorem indentFirst_clean (L : List String)
    (h : ∀ s ∈ L, isMloglossLine s = false) :
    ∀ s ∈ indentFirst L, isMloglossLine s = false := by
  intro s hs
  cases L with
  | nil => simp [indentFirst] at hs
  | cons a t =>
    simp only [indentFirst] at hs
    rcases List.mem_cons.mp hs with rfl | hs2
    · apply isMloglossLine_of_head _ ' ' a.data
      · rw [string_data_append]
        rfl
      · decide
    · exact h s (List.mem_cons_of_mem a hs2)

theorem validationBranch_none (env : TrainEnv) (args : TrainArgs)
    (h : resolveValidationDir env args = none) :
    validationBranch env args = (false, ["WARNING: No validation directory provided"]) := by
  unfold validationBranch
  rw [h]

theorem validationBranch_blank (env : TrainEnv) (args : TrainArgs)
    (h : resolveValidationDir env args = some "") :
    validationBranch env args = (false, ["WARNING: No validation directory provided"]) := by
  simp [validationBranch, h]

theorem validationBranch_absent (env : TrainEnv) (args : TrainArgs) (vd : String)
    (h : resolveValidationDir env args = some vd) (hne : vd ≠ "")
    (hex : env.path_exists vd = false) :
    validationBranch env args =
      (false, ["WARNING: Validation directory does not exist: " ++ vd]) := by
  simp [validationBranch, h, hne, hex]

theorem validationBranch_nofiles (env : TrainEnv) (args : TrainArgs) (vd : String)
    (h : resolveValidationDir env args = some vd) (hne : vd ≠ "")
    (hex : env.path_exists vd = true) (hls : env.listdir vd = []) :
    validationBranch env args =
      (false, ["Files in validation dir: []", "WARNING: No files found in " ++ vd]) := by
  simp [validationBranch, h, hne, hex, hls]

theorem validationBranch_found (env : TrainEnv) (args : TrainArgs) (vd v : String)
    (vs : List String)
    (h : resolveValidationDir env args = some vd) (hne : vd ≠ "")
    (hex : env.path_exists vd = true) (hls : env.listdir vd = v :: vs) :
    validationBranch env args = (true,
      ["Files in validation dir: " ++ pyStrListRepr (v :: vs),
       "Loading validation data from: " ++ (vd ++ "/" ++ v),
       "Validation Samples: " ++ natStr (env.read_csv (vd ++ "/" ++ v)).labels.length,
       "Validation class distribution:"] ++
      valueCountsLines (env.read_csv (vd ++ "/" ++ v)).labels) := by
  simp [validationBranch, h, hne, hex, hls]

theorem trainMain_noval (env : TrainEnv) (args : TrainArgs) (f : String)
    (fs L3 : List String)
    (hf : env.listdir args.data_dir = f :: fs)
    (hbr : validationBranch env args = (false, L3)) :
    trainMain env args = Except.ok
      ⟨(["Loading training data from: " ++ (args.data_dir ++ "/" ++ f),
         "Training data shape: (" ++
           natStr (env.read_csv (args.data_dir ++ "/" ++ f)).labels.length ++ ", 5)",
         "Class distribution:"] ++
        indentFirst (valueCountsLines (env.read_csv (args.data_dir ++ "/" ++ f)).labels)) ++
       ["Checking validation dir: " ++ pyOptStr (resolveValidationDir env args)] ++
       L3 ++ [eqBanner, ""] ++
       ["Training with parameters: " ++ paramsRepr args,
        "Number of rounds: " ++ natStr args.num_round, ""] ++
       ["", " WARNING: No validation metrics computed!",
        "   evals is empty: True", "   dval is None: True", ""] ++
       ["Model saved to " ++ (args.model_dir ++ "/model.bst")],
       args.model_dir ++ "/model.bst"⟩ := by
  simp [trainMain, hf, hbr]

theorem trainMain_val (env : TrainEnv) (args : TrainArgs) (f : String)
    (fs L3 : List String) (m : ℚ)
    (hf : env.listdir args.data_dir = f :: fs)
    (hbr : validationBranch env args = (true, L3))
    (hm : env.xgb_mlogloss.getLast? = some m) :
    trainMain env args = Except.ok
      ⟨(["Loading training data from: " ++ (args.data_dir ++ "/" ++ f),
         "Training data shape: (" ++
           natStr (env.read_csv (args.data_dir ++ "/" ++ f)).labels.length ++ ", 5)",
         "Class distribution:"] ++
        indentFirst (valueCountsLines (env.read_csv (args.data_dir ++ "/" ++ f)).labels)) ++
       ["Checking validation dir: " ++ pyOptStr (resolveValidationDir env args)] ++
       L3 ++ [eqBanner, ""] ++
       ["Training with parameters: " ++ paramsRepr args,
        "Number of rounds: " ++ natStr args.num_round, ""] ++
       (["", eqBanner, "VALIDATION METRICS", eqBanner,
         "validation:mlogloss=" ++ floatStr m ++ ";",
         "validation:accuracy=" ++ floatStr env.val_accuracy,
         "", "Validation Accuracy: " ++ floatStr env.val_accuracy,
         "Validation MLogloss: " ++ floatStr m,
         "", "Classification Report:"] ++ env.classification_report_lines ++
        [eqBanner, ""]) ++
       ["Model saved to " ++ (args.model_dir ++ "/model.bst")],
       args.model_dir ++ "/model.bst"⟩ := by
  simp [trainMain, hf, hbr, hm]

theorem noval_stdout_clean (dp : String) (ls : List Int) (ck : String)
    (L3 : List String) (args : TrainArgs) (mp : String)
    (h3 : ∀ s ∈ L3, isMloglossLine s = false) :
    ((["Loading training data from: " ++ dp,
       "Training data shape: (" ++ natStr ls.length ++ ", 5)",
       "Class distribution:"] ++ indentFirst (valueCountsLines ls)) ++
     ["Checking validation dir: " ++ ck] ++
     L3 ++ [eqBanner, ""] ++
     ["Training with parameters: " ++ paramsRepr args,
      "Number of rounds: " ++ natStr args.num_round, ""] ++
     ["", " WARNING: No validation metrics computed!",
      "   evals is empty: True", "   dval is None: True", ""] ++
     ["Model saved to " ++ mp]).all (fun l => !isMloglossLine l) = true := by
  apply all_not_mlogloss_of_forall
  rw [List.forall_mem_append]
  constructor
  · rw [List.forall_mem_append]
    constructor
    · rw [List.forall_mem_append]
      constructor
      · rw [List.forall_mem_append]
        constructor
        · rw [List.forall_mem_append]
          constructor
          · rw [List.forall_mem_append]
            constructor
            · rw [List.forall_mem_append]
              constructor
              · simp only [List.forall_mem_cons]
                refine ⟨?_, ?_, ?_, ?_⟩
                · exact isMloglossLine_const_head _ _ 'L' _ rfl (by decide)
                · exact isMloglossLine_append2_head _ _ _ 'T' _ rfl (by decide)
                · rfl
                · exact fun s hs => absurd hs (List.not_mem_nil s)
              · exact indentFirst_clean _ (valueCountsLines_clean ls)
            · simp only [List.forall_mem_cons]
              exact ⟨isMloglossLine_const_head _ _ 'C' _ rfl (by decide),
                     fun s hs => absurd hs (List.not_mem_nil s)⟩
          · exact h3
        · simp only [List.forall_mem_cons]
          exact ⟨rfl, rfl, fun s hs => absurd hs (List.not_mem_nil s)⟩
      · simp only [List.forall_mem_cons]
        refine ⟨?_, ?_, ?_, ?_⟩
        · exact isMloglossLine_const_head _ _ 'T' _ rfl (by decide)
        · exact isMloglossLine_const_head _ _ 'N' _ rfl (by decide)
        · rfl
        · exact fun s hs => absurd hs (List.not_mem_nil s)
    · simp only [List.forall_mem_cons]
      exact ⟨rfl, rfl, rfl, rfl, rfl, fun s hs => absurd hs (List.not_mem_nil s)⟩
  · simp only [List.forall_mem_cons]
    exact ⟨isMloglossLine_const_head _ _ 'M' _ rfl (by decide),
           fun s hs => absurd hs (List.not_mem_nil s)⟩

/-- C5: when the training entry point finds validation data (a resolved
validation directory that is truthy, exists, and contains at least one
file), its standard output contains a line exactly of the form
validation:mlogloss=(float); and that line is matched by the tuner's
regular expression; when no validation data is found, the run still
completes, the model is still saved, and no line of that form appears in
the standard output.  The hypotheses scope the statement to runs that
complete: the training directory lists at least one file, and when
validation data is found, XGBoost produced at least one (nonnegative)
validation mlogloss value — one per boosting round. -/
theorem c5_validation_metric_contract (env : TrainEnv) (args : TrainArgs)
    (htrain : env.listdir args.data_dir ≠ [])
    (hlast : validationFound env args = true →
      ∃ m, env.xgb_mlogloss.getLast? = some m ∧ 0 ≤ m) :
    ∃ res, trainMain env args = Except.ok res ∧
      res.model_path = args.model_dir ++ "/model.bst" ∧
      (validationFound env args = true →
        ∃ l, l ∈ res.stdout ∧ isMloglossLine l = true ∧ tunerRegexMatches l = true) ∧
      (validationFound env args = false →
        res.stdout.all (fun l => !isMloglossLine l) = true) := by
  obtain ⟨f, fs, hf⟩ := List.exists_cons_of_ne_nil htrain
  cases hvd : resolveValidationDir env args with
  | none =>
    have hvf : validationFound env args = false := by
      unfold validationFound
      rw [hvd]
    have hbr := validationBranch_none env args hvd
    have hmain := trainMain_noval env args f fs _ hf hbr
    refine ⟨_, hmain, rfl, ?_, ?_⟩
    · intro hcontra
      rw [hvf] at hcontra
      exact absurd hcontra (by decide)
    · intro _
      refine noval_stdout_clean _ _ _ _ args _ ?_
      intro s hs
      rw [List.mem_singleton] at hs
      subst hs
      rfl
  | some vd =>
    by_cases hvde : vd = ""
    · subst hvde
      have hvf : validationFound env args = false := by
        unfold validationFound
        rw [hvd]
        rfl
      have hbr := validationBranch_blank env args hvd
      have hmain := trainMain_noval env args f fs _ hf hbr
      refine ⟨_, hmain, rfl, ?_, ?_⟩
      · intro hcontra
        rw [hvf] at hcontra
        exact absurd hcontra (by decide)
      · intro _
        refine noval_stdout_clean _ _ _ _ args _ ?_
        intro s hs
        rw [List.mem_singleton] at hs
        subst hs
        rfl
    · by_cases hex : env.path_exists vd = true
      · cases hls : env.listdir vd with
        | nil =>
          have hvf : validationFound env args = false := by
            simp [validationFound, hvd, hls]
          have hbr := validationBranch_nofiles env args vd hvd hvde hex hls
          have hmain := trainMain_noval env args f fs _ hf hbr
          refine ⟨_, hmain, rfl, ?_, ?_⟩
          · intro hcontra
            rw [hvf] at hcontra
            exact absurd hcontra (by decide)
          · intro _
            refine noval_stdout_clean _ _ _ _ args _ ?_
            intro s hs
            rcases List.mem_cons.mp hs with rfl | hs2
            · rfl
            · rw [List.mem_singleton] at hs2
              subst hs2
              exact isMloglossLine_const_head _ _ 'W' _ rfl (by decide)
        | cons v vs =>
          have hvf : validationFound env args = true := by
            simp [validationFound, hvd, hvde, hex, hls]
          obtain ⟨m, hm, hm0⟩ := hlast hvf
          have hbr := validationBranch_found env args vd v vs hvd hvde hex hls
          have hmain := trainMain_val env args f fs _ m hf hbr hm
          refine ⟨_, hmain, rfl, ?_, ?_⟩
          · intro _
            refine ⟨"validation:mlogloss=" ++ floatStr m ++ ";", ?_,
              isMloglossLine_metric m hm0, tunerRegex_metric m hm0⟩
            simp
          · intro hcontra
            rw [hvf] at hcontra
            exact absurd hcontra (by decide)
      · have hexf : env.path_exists vd = false := by
          simp at hex
          exact hex
        have hvf : validationFound env args = false := by
          simp [validationFound, hvd, hexf]
        have hbr := validationBranch_absent env args vd hvd hvde hexf
        have hmain := trainMain_noval env args f fs _ hf hbr
        refine ⟨_, hmain, rfl, ?_, ?_⟩
        · intro hcontra
          rw [hvf] at hcontra
          exact absurd hcontra (by decide)
        · intro _
          refine noval_stdout_clean _ _ _ _ args _ ?_
          intro s hs
          rw [List.mem_singleton] at hs
          subst hs
          exact isMloglossLine_const_head _ _ 'W' _ rfl (by decide)

def c5Args : TrainArgs :=
  ⟨"/opt/ml/input/data/train", "/opt/ml/model", 50, 3, 1/10, none, 3, "multi:softprob"⟩

def c5Env : TrainEnv :=
  ⟨some "/opt/ml/input/data/validation",
   fun _ => ["iris.csv"],
   fun _ => true,
   fun _ => ⟨[0, 1, 2], [[5, 3, 1, 0]]⟩,
   [2],
   19/20,
   ["class table"]⟩

theorem c5_validation_metric_contract_witness :
    ∃ res, trainMain c5Env c5Args = Except.ok res ∧
      res.model_path = c5Args.model_dir ++ "/model.bst" ∧
      (validationFound c5Env c5Args = true →
        ∃ l, l ∈ res.stdout ∧ isMloglossLine l = true ∧ tunerRegexMatches l = true) ∧
      (validationFound c5Env c5Args = false →
        res.stdout.all (fun l => !isMloglossLine l) = true) :=
  c5_validation_metric_contract c5Env c5Args (by decide)
    (fun _ => ⟨2, rfl, by decide⟩)
